import Mathlib

/-!
Shallow embedding of `src/main.py` of the pdf-compressor-cli repository.

The program shells out to Ghostscript (primary compressor) and to the
pikepdf library (fallback optimizer).  Those external effects are modelled
by explicit environment records (`GsEnv`, `PikeEnv`, `WriteEnv`, `Env`)
that record what the external world would answer, and the filesystem is
modelled by an explicit state (`FS`) threaded through the functions that
touch it.  Every definition mirrors the Python function of the same name.
-/

namespace PdfCompress

/-- An absolute filesystem path, as its list of components
(`/in/a/b.pdf` is `["in", "a", "b.pdf"]`). -/
abbrev FsPath := List String

/-- Rendering of a path for messages (Python interpolates the `Path` object). -/
def pathStr (p : FsPath) : String := "/" ++ String.intercalate "/" p

/-- `QUALITY_MAP` from `main.py`. -/
def QUALITY_MAP : List (String × String) :=
  [("screen", "/screen"), ("ebook", "/ebook"),
   ("printer", "/printer"), ("prepress", "/prepress")]

/-- The `CompressResult` dataclass of `main.py`. -/
structure CompressResult where
  src : FsPath
  dst : FsPath
  method : String
  before_bytes : Nat
  after_bytes : Nat
  saved_bytes : Nat
  saved_pct : ℚ
  skipped : Bool
  message : String
deriving Repr, DecidableEq

/-- Round a rational to the nearest integer, ties to even: the rounding of
Python's fixed-point float formatting, idealised over ℚ. -/
def roundHalfEven (x : ℚ) : ℤ :=
  if x - ⌊x⌋ < 1 / 2 then ⌊x⌋
  else if 1 / 2 < x - ⌊x⌋ then ⌊x⌋ + 1
  else if Even ⌊x⌋ then ⌊x⌋ else ⌊x⌋ + 1

/-- Two-digit zero padding of the fractional part. -/
def pad2 (n : Nat) : String := if n < 10 then "0" ++ toString n else toString n

/-- Python's `f"{size:.2f}"` on a nonnegative value, idealised over ℚ. -/
def fmt2 (q : ℚ) : String :=
  let c := roundHalfEven (q * 100)
  toString (c / 100) ++ "." ++ pad2 (c % 100).toNat

/-- The `units` list of `human_bytes`. -/
def human_units : List String := ["B", "KB", "MB", "GB", "TB"]

/-- The `for u in units` loop body of `human_bytes`: `rest = []` is the
`u == units[-1]` test, and Python's `int(size)` is `⌊size⌋` (sizes are
nonnegative).  The final `return f"{n} B"` after the loop is the `[]` case. -/
def human_go (n : Nat) (size : ℚ) : List String → String
  | [] => toString n ++ " B"
  | u :: rest =>
    if size < 1024 ∨ rest = [] then
      if u = "B" then toString ⌊size⌋ ++ " " ++ u else fmt2 size ++ " " ++ u
    else human_go n (size / 1024) rest

/-- `human_bytes` from `main.py`. -/
def human_bytes (n : Nat) : String := human_go n (n : ℚ) human_units

/-- `ensure_output_path` from `main.py`.  `src.name` is the last path
component; `src.relative_to(input_root)` succeeds exactly when
`input_root` is a prefix of `src` (absolute, normalised paths), and the
`except` branch falls back to the bare filename. -/
def ensure_output_path (src : FsPath) (input_root : Option FsPath)
    (out_dir : FsPath) : FsPath :=
  match input_root with
  | none => out_dir ++ [src.getLastD ""]
  | some root =>
    if root.isPrefixOf src then out_dir ++ src.drop root.length
    else out_dir ++ [src.getLastD ""]

/-- What the external world answers to `run_ghostscript_compress`:
whether `shutil.which("gs")` finds the tool, whether `subprocess.run`
raises, and the exit code and (stripped) output streams of the process. -/
structure GsEnv where
  gsFound : Bool
  launchError : Option String
  returncode : Int
  stderrTrim : String
  stdoutTrim : String
deriving Repr, DecidableEq

/-- `run_ghostscript_compress` from `main.py`, over a `GsEnv`. -/
def run_ghostscript_compress (quality : String) (e : GsEnv) : Bool × String :=
  if ! e.gsFound then (false, "Ghostscript (gs) not found.")
  else if (QUALITY_MAP.lookup quality).isNone then
    (false, "Unknown quality: " ++ quality)
  else
    match e.launchError with
    | some err => (false, "Ghostscript execution error: " ++ err)
    | none =>
      if e.returncode ≠ 0 then
        (false,
          if e.stderrTrim ≠ "" then e.stderrTrim
          else if e.stdoutTrim ≠ "" then e.stdoutTrim
          else "Ghostscript failed.")
      else (true, "Compressed with Ghostscript.")

/-- What the external world answers to `run_pikepdf_optimize`: whether the
`pikepdf` import succeeded at process start, and whether the
open/optimize/save sequence raises. -/
structure PikeEnv where
  installed : Bool
  errorMsg : Option String
deriving Repr, DecidableEq

/-- `run_pikepdf_optimize` from `main.py`, over a `PikeEnv`. -/
def run_pikepdf_optimize (e : PikeEnv) : Bool × String :=
  if ! e.installed then (false, "pikepdf is not installed (fallback unavailable).")
  else
    match e.errorMsg with
    | some err => (false, "pikepdf failed: " ++ err)
    | none => (true, "Optimized with pikepdf (structure/streams).")

/-- The filesystem state: which regular files exist (with their size in
bytes) and which directories exist. -/
structure FS where
  files : List (FsPath × Nat)
  dirs : List FsPath
deriving Repr, DecidableEq

/-- `final_out.exists()` for a regular file. -/
def FS.fileExists (fs : FS) (p : FsPath) : Bool := (fs.files.lookup p).isSome

/-- Update-or-insert of a file entry (the effect of `shutil.move` on the
destination). -/
def setFile : List (FsPath × Nat) → FsPath → Nat → List (FsPath × Nat)
  | [], p, sz => [(p, sz)]
  | (q, s) :: rest, p, sz =>
    if q = p then (p, sz) :: rest else (q, s) :: setFile rest p sz

/-- All nonempty prefixes of a path: the directory and its ancestors. -/
def pathAncestors : FsPath → List FsPath
  | [] => []
  | x :: xs => [x] :: (pathAncestors xs).map (fun p => x :: p)

/-- `final_out.parent.mkdir(parents=True, exist_ok=True)`: every missing
ancestor of `dir` is created, existing ones are left alone. -/
def FS.mkdirParents (fs : FS) (dir : FsPath) : FS :=
  { fs with dirs := fs.dirs ++ (pathAncestors dir).filter (fun d => ! fs.dirs.contains d) }

/-- Whether `shutil.move` raises (I/O error), and its message. -/
structure WriteEnv where
  moveFails : Bool
  moveErr : String
deriving Repr, DecidableEq

/-- `safe_write_output` from `main.py`: make the parent directories, check
for an existing destination, then move the temporary file into place.
`tmpSize` is the size of the file at `tmp_out`. -/
def safe_write_output (tmpSize : Nat) (final_out : FsPath) (overwrite : Bool)
    (wenv : WriteEnv) (fs : FS) : (Bool × String) × FS :=
  let fs1 := fs.mkdirParents final_out.dropLast
  if fs1.fileExists final_out && ! overwrite then
    ((false, "Output exists (use --overwrite): " ++ pathStr final_out), fs1)
  else if wenv.moveFails then
    ((false, "Failed to save output: " ++ wenv.moveErr), fs1)
  else
    ((true, "Saved."), { fs1 with files := setFile fs1.files final_out tmpSize })

/-- The whole external world one `compress_one` call sees: the Ghostscript
and pikepdf behaviours, whether the successful strategy actually left a
file at `tmp_out` (`tmp_out.exists()`), that file's size
(`tmp_out.stat().st_size`), and the `shutil.move` behaviour. -/
structure Env where
  gs : GsEnv
  pike : PikeEnv
  tmpExists : Bool
  tmpSize : Nat
  write : WriteEnv
deriving Repr, DecidableEq

/-- The tail of `compress_one` after a strategy succeeded (from
`if not tmp_out.exists()` to the end): defensive existence check, size
acceptance check, then commit via `safe_write_output`.  `method` and `msg`
are the values of the Python locals at that point. -/
def finish_compress (src dst : FsPath) (before : Nat) (method msg : String)
    (overwrite : Bool) (env : Env) (fs : FS) : CompressResult × FS :=
  if ! env.tmpExists then
    ({ src := src, dst := dst, method := "failed", before_bytes := before,
       after_bytes := before, saved_bytes := 0, saved_pct := 0, skipped := true,
       message := "Compression produced no output file." }, fs)
  else
    let after := env.tmpSize
    if before ≤ after then
      ({ src := src, dst := dst, method := method, before_bytes := before,
         after_bytes := after, saved_bytes := 0, saved_pct := 0, skipped := true,
         message := "Skipped: output not smaller (" ++ human_bytes after ++ " >= "
           ++ human_bytes before ++ "). " ++ msg }, fs)
    else
      let w := safe_write_output env.tmpSize dst overwrite env.write fs
      if ! w.1.1 then
        ({ src := src, dst := dst, method := method, before_bytes := before,
           after_bytes := after, saved_bytes := before - after,
           saved_pct := if before = 0 then 0 else ((before : ℚ) - after) / before * 100,
           skipped := true, message := w.1.2 }, w.2)
      else
        ({ src := src, dst := dst, method := method, before_bytes := before,
           after_bytes := after, saved_bytes := before - after,
           saved_pct := if before = 0 then 0 else ((before : ℚ) - after) / before * 100,
           skipped := false, message := msg }, w.2)

/-- `compress_one` from `main.py`.  `before` is `src.stat().st_size`. -/
def compress_one (src dst : FsPath) (before : Nat) (quality : String)
    (overwrite dry_run : Bool) (env : Env) (fs : FS) : CompressResult × FS :=
  if dry_run then
    ({ src := src, dst := dst, method := "dry-run", before_bytes := before,
       after_bytes := before, saved_bytes := 0, saved_pct := 0, skipped := true,
       message := "Dry run: no file written." }, fs)
  else
    let gsr := run_ghostscript_compress quality env.gs
    if gsr.1 then
      finish_compress src dst before ("ghostscript(" ++ quality ++ ")") gsr.2
        overwrite env fs
    else
      let pr := run_pikepdf_optimize env.pike
      if pr.1 then
        finish_compress src dst before "pikepdf(optimize)" pr.2 overwrite env fs
      else
        ({ src := src, dst := dst, method := "failed", before_bytes := before,
           after_bytes := before, saved_bytes := 0, saved_pct := 0, skipped := true,
           message := "Compression failed. GS: " ++ gsr.2 ++ " | Fallback: " ++ pr.2 },
         fs)

/-- The totals accumulated by the folder-mode loop in `main`. -/
structure Totals where
  total_before : Nat
  total_after : Nat
  saved_files : Nat
  skipped_files : Nat
  failed_files : Nat
deriving Repr, DecidableEq

/-- One iteration of the accumulation in `main`'s folder loop
(`total_before += ...` down to `skipped_files += 1`). -/
def fold_result (dry_run : Bool) (t : Totals) (res : CompressResult) : Totals :=
  let t1 := { t with total_before := t.total_before + res.before_bytes }
  if ! res.skipped && ! dry_run then
    { t1 with total_after := t1.total_after + res.after_bytes,
              saved_files := t1.saved_files + 1 }
  else if res.method = "failed" then
    { t1 with failed_files := t1.failed_files + 1 }
  else
    { t1 with skipped_files := t1.skipped_files + 1 }

/-- The folder-mode loop's accumulation over the per-file results, started
from all-zero totals as in `main`. -/
def batch_totals (dry_run : Bool) (results : List CompressResult) : Totals :=
  results.foldl (fold_result dry_run) ⟨0, 0, 0, 0, 0⟩

/-- The exit code of `main` in single-file mode: `2` when the source is
missing or has the wrong (lowercased) suffix, else `0`/`1` from the
`compress_one` result. -/
def main_single_exit (srcExists : Bool) (suffixLower : String) (src dst : FsPath)
    (before : Nat) (quality : String) (overwrite dry_run : Bool) (env : Env)
    (fs : FS) : Nat :=
  if ! srcExists then 2
  else if suffixLower ≠ ".pdf" then 2
  else if (compress_one src dst before quality overwrite dry_run env fs).1.skipped
  then 1 else 0

/-- The exit code of `main` in folder mode: `2` when the folder is missing
or not a directory, `0` when no PDFs are found, `0` after a dry-run, and
`0` after emitting the summary. -/
def main_folder_exit (folderOk : Bool) (pdfs : List FsPath) (dry_run : Bool) : Nat :=
  if ! folderOk then 2
  else if pdfs.isEmpty then 0
  else if dry_run then 0
  else 0

/-- The folder-mode loop itself: process each source in order, threading
the filesystem state.  One entry is `(src, dst, before, env)`. -/
def run_batch (quality : String) (overwrite dry_run : Bool) :
    List (FsPath × FsPath × Nat × Env) → FS → List CompressResult × FS
  | [], fs => ([], fs)
  | (src, dst, before, env) :: rest, fs =>
    let r := compress_one src dst before quality overwrite dry_run env fs
    let rs := run_batch quality overwrite dry_run rest r.2
    (r.1 :: rs.1, rs.2)

/-- A world where Ghostscript is present and succeeds, producing a candidate
of `sz` bytes, pikepdf is absent, and `shutil.move` works. -/
def egEnvOk (sz : Nat) : Env :=
  { gs := { gsFound := true, launchError := none, returncode := 0,
            stderrTrim := "", stdoutTrim := "" },
    pike := { installed := false, errorMsg := none },
    tmpExists := true, tmpSize := sz,
    write := { moveFails := false, moveErr := "" } }

/-- A world where Ghostscript is not on the path and pikepdf failed to
import, so both strategies fail. -/
def egEnvFail : Env :=
  { gs := { gsFound := false, launchError := none, returncode := 0,
            stderrTrim := "", stdoutTrim := "" },
    pike := { installed := false, errorMsg := none },
    tmpExists := false, tmpSize := 0,
    write := { moveFails := false, moveErr := "" } }

/-- The three-file batch of the spec's aggregate-summary example:
before-sizes 300, 400, 500; candidates of 200, 250, 600 bytes, so the
first two commit and the third is rejected as not smaller. -/
def egEntries : List (FsPath × FsPath × Nat × Env) :=
  [(["in", "f1.pdf"], ["out", "f1.pdf"], 300, egEnvOk 200),
   (["in", "f2.pdf"], ["out", "f2.pdf"], 400, egEnvOk 250),
   (["in", "f3.pdf"], ["out", "f3.pdf"], 500, egEnvOk 600)]

/-! ## Helper lemmas -/

/-- `FS.mkdirParents` touches only the directory set, never the files. -/
theorem mkdirParents_files (fs : FS) (d : FsPath) :
    (fs.mkdirParents d).files = fs.files := rfl

/-- `FS.fileExists` depends only on the `files` component. -/
theorem fileExists_congr (fs fs' : FS) (p : FsPath) (h : fs.files = fs'.files) :
    fs.fileExists p = fs'.fileExists p := by
  simp [FS.fileExists, h]

/-- The tail of `compress_one` never looks at the pikepdf part of the
environment. -/
theorem finish_compress_pike_irrel (src dst : FsPath) (before : Nat)
    (method msg : String) (overwrite : Bool) (env : Env) (pike' : PikeEnv) (fs : FS) :
    finish_compress src dst before method msg overwrite { env with pike := pike' } fs
      = finish_compress src dst before method msg overwrite env fs := by
  cases env; rfl

/-- Field-level facts about the tail of `compress_one`: a non-skipped
result means the candidate measured strictly smaller, and a
larger-or-equal candidate is skipped with the strategy name retained and
zero saved bytes. -/
theorem finish_compress_fields (src dst : FsPath) (before : Nat)
    (method msg : String) (overwrite : Bool) (env : Env) (fs : FS) :
    ((finish_compress src dst before method msg overwrite env fs).1.skipped = false →
       (finish_compress src dst before method msg overwrite env fs).1.after_bytes
         < (finish_compress src dst before method msg overwrite env fs).1.before_bytes)
    ∧ (env.tmpExists = true → before ≤ env.tmpSize →
        (finish_compress src dst before method msg overwrite env fs).1.skipped = true
        ∧ (finish_compress src dst before method msg overwrite env fs).1.saved_bytes = 0
        ∧ (finish_compress src dst before method msg overwrite env fs).1.after_bytes
            = env.tmpSize
        ∧ (finish_compress src dst before method msg overwrite env fs).1.method
            = method) := by
  by_cases h1 : env.tmpExists
  · by_cases h2 : before ≤ env.tmpSize
    · simp [finish_compress, h1, h2]
    · by_cases h3 : (safe_write_output env.tmpSize dst overwrite env.write fs).1.1
      · simp [finish_compress, h1, h2, h3]
        omega
      · simp [finish_compress, h1, h2, h3]
  · simp [finish_compress, h1]

/-! ## Claim theorems -/

/-- Claim C10: the human-readable size formatter maps 0 to "0 B",
1536 to "1.50 KB", and 1073741824 to "1.00 GB". -/
theorem human_bytes_examples :
    human_bytes 0 = "0 B"
    ∧ human_bytes 1536 = "1.50 KB"
    ∧ human_bytes 1073741824 = "1.00 GB" := by
  refine ⟨?_, ?_, ?_⟩ <;>
    · norm_num [human_bytes, human_units, human_go, fmt2, roundHalfEven, pad2]
      rfl

/-- Claim C5: with dry-run requested, `compress_one` returns a result with
`method = "dry-run"`, `skipped = true` and `after_bytes = before_bytes`,
leaves the filesystem unchanged, and consults nothing in the external
world (the right-hand side does not depend on `env`). -/
theorem compress_one_dry_run (src dst : FsPath) (before : Nat) (quality : String)
    (overwrite : Bool) (env : Env) (fs : FS) :
    compress_one src dst before quality overwrite true env fs =
      ({ src := src, dst := dst, method := "dry-run", before_bytes := before,
         after_bytes := before, saved_bytes := 0, saved_pct := 0, skipped := true,
         message := "Dry run: no file written." }, fs) := rfl

/-- Claim C4: when Ghostscript and the pikepdf fallback both fail,
`compress_one` returns `method = "failed"`, `skipped = true`,
`after_bytes = before_bytes`, `saved_bytes = 0`, and a message holding
both failure reasons, and leaves the filesystem unchanged. -/
theorem compress_one_both_fail (src dst : FsPath) (before : Nat) (quality : String)
    (overwrite : Bool) (env : Env) (fs : FS)
    (hgs : (run_ghostscript_compress quality env.gs).1 = false)
    (hpk : (run_pikepdf_optimize env.pike).1 = false) :
    compress_one src dst before quality overwrite false env fs =
      ({ src := src, dst := dst, method := "failed", before_bytes := before,
         after_bytes := before, saved_bytes := 0, saved_pct := 0, skipped := true,
         message := "Compression failed. GS: "
           ++ (run_ghostscript_compress quality env.gs).2
           ++ " | Fallback: " ++ (run_pikepdf_optimize env.pike).2 }, fs) := by
  simp [compress_one, hgs, hpk]

/-- Witness for C4 at a concrete world: Ghostscript absent and pikepdf not
installed. -/
theorem compress_one_both_fail_witness :
    compress_one ["in", "a.pdf"] ["out", "a.pdf"] 100 "ebook" false false
        egEnvFail ⟨[], []⟩ =
      ({ src := ["in", "a.pdf"], dst := ["out", "a.pdf"], method := "failed",
         before_bytes := 100, after_bytes := 100, saved_bytes := 0, saved_pct := 0,
         skipped := true,
         message := "Compression failed. GS: Ghostscript (gs) not found."
           ++ " | Fallback: pikepdf is not installed (fallback unavailable)." },
       ⟨[], []⟩) :=
  compress_one_both_fail ["in", "a.pdf"] ["out", "a.pdf"] 100 "ebook" false
    egEnvFail ⟨[], []⟩ rfl rfl

/-- Claim C7: the path mapper sends `src` to `out_dir / src.name` when no
batch root is given; with a batch root it appends the relative part when
`src` lies under the root and falls back to the bare filename otherwise;
`/in/a/b.pdf` under root `/in` with output `/out` maps to `/out/a/b.pdf`,
and with no root `/in/b.pdf` maps to `/out/b.pdf`. -/
theorem ensure_output_path_mapping (src root rel out_dir : FsPath) :
    ensure_output_path src none out_dir = out_dir ++ [src.getLastD ""]
    ∧ ensure_output_path (root ++ rel) (some root) out_dir = out_dir ++ rel
    ∧ ((¬ ∃ t, src = root ++ t) →
        ensure_output_path src (some root) out_dir = out_dir ++ [src.getLastD ""])
    ∧ ensure_output_path ["in", "a", "b.pdf"] (some ["in"]) ["out"]
        = ["out", "a", "b.pdf"]
    ∧ ensure_output_path ["in", "b.pdf"] none ["out"] = ["out", "b.pdf"] := by
  refine ⟨rfl, ?_, ?_, rfl, rfl⟩
  · simp [ensure_output_path, List.drop_left]
  · intro hnp
    have hp : root.isPrefixOf src = false := by
      rcases h : root.isPrefixOf src with _ | _
      · rfl
      · rw [List.isPrefixOf_iff_prefix] at h
        obtain ⟨t, ht⟩ := h
        exact absurd ⟨t, ht.symm⟩ hnp
    simp [ensure_output_path, hp]

/-- Witness for C7's fallback case: `/x/b.pdf` is not under root `/in`, so
the mapper falls back to the bare filename. -/
theorem ensure_output_path_mapping_witness :
    ensure_output_path ["x", "b.pdf"] (some ["in"]) ["out"] = ["out", "b.pdf"] :=
  (ensure_output_path_mapping ["x", "b.pdf"] ["in"] [] ["out"]).2.2.1
    (by rintro ⟨t, ht⟩; simp at ht)

/-- Claim C8: the strategies run strictly in order.  When Ghostscript
reports success the pikepdf fallback is never consulted (the result does
not depend on the pikepdf part of the world), and, provided the candidate
file exists, the recorded method is `ghostscript(quality)`. -/
theorem compress_one_strategy_order (src dst : FsPath) (before : Nat)
    (quality : String) (overwrite : Bool) (env : Env) (pike' : PikeEnv) (fs : FS)
    (hgs : (run_ghostscript_compress quality env.gs).1 = true) :
    compress_one src dst before quality overwrite false { env with pike := pike' } fs
      = compress_one src dst before quality overwrite false env fs
    ∧ (env.tmpExists = true →
        (compress_one src dst before quality overwrite false env fs).1.method
          = "ghostscript(" ++ quality ++ ")") := by
  constructor
  · simp only [compress_one, hgs]
    simp [finish_compress_pike_irrel]
  · intro hex
    simp only [compress_one, hgs, finish_compress, hex]
    split_ifs <;> simp_all

/-- Witness for C8 at a concrete world: Ghostscript succeeds with a
120-byte candidate; replacing the pikepdf part of the world changes
nothing and the method is `ghostscript(ebook)`. -/
theorem compress_one_strategy_order_witness :
    compress_one ["in", "a.pdf"] ["out", "a.pdf"] 300 "ebook" false false
        { egEnvOk 120 with pike := { installed := true, errorMsg := none } } ⟨[], []⟩
      = compress_one ["in", "a.pdf"] ["out", "a.pdf"] 300 "ebook" false false
          (egEnvOk 120) ⟨[], []⟩
    ∧ (compress_one ["in", "a.pdf"] ["out", "a.pdf"] 300 "ebook" false false
          (egEnvOk 120) ⟨[], []⟩).1.method = "ghostscript(" ++ "ebook" ++ ")" :=
  ⟨(compress_one_strategy_order ["in", "a.pdf"] ["out", "a.pdf"] 300 "ebook" false
      (egEnvOk 120) { installed := true, errorMsg := none } ⟨[], []⟩ rfl).1,
   (compress_one_strategy_order ["in", "a.pdf"] ["out", "a.pdf"] 300 "ebook" false
      (egEnvOk 120) { installed := true, errorMsg := none } ⟨[], []⟩ rfl).2 rfl⟩

/-- Claim C1: a non-skipped `compress_one` result always has
`after_bytes < before_bytes`, and whenever a strategy produced a candidate
that measured larger-or-equal, the result is skipped with `saved_bytes = 0`
and the method still names the strategy that produced the candidate. -/
theorem compress_one_size_acceptance (src dst : FsPath) (before : Nat)
    (quality : String) (overwrite dry_run : Bool) (env : Env) (fs : FS) :
    ((compress_one src dst before quality overwrite dry_run env fs).1.skipped = false →
       (compress_one src dst before quality overwrite dry_run env fs).1.after_bytes
         < (compress_one src dst before quality overwrite dry_run env fs).1.before_bytes)
    ∧ (dry_run = false → env.tmpExists = true → before ≤ env.tmpSize →
        ((run_ghostscript_compress quality env.gs).1 = true
          ∨ (run_pikepdf_optimize env.pike).1 = true) →
        (compress_one src dst before quality overwrite dry_run env fs).1.skipped = true
        ∧ (compress_one src dst before quality overwrite dry_run env fs).1.saved_bytes = 0
        ∧ (compress_one src dst before quality overwrite dry_run env fs).1.after_bytes
            = env.tmpSize
        ∧ (compress_one src dst before quality overwrite dry_run env fs).1.method
            = (if (run_ghostscript_compress quality env.gs).1
               then "ghostscript(" ++ quality ++ ")" else "pikepdf(optimize)")) := by
  by_cases hd : dry_run
  · subst hd
    simp [compress_one]
  · have hd' : dry_run = false := by simp_all
    subst hd'
    by_cases hgs : (run_ghostscript_compress quality env.gs).1
    · constructor
      · intro h
        have := (finish_compress_fields src dst before
          ("ghostscript(" ++ quality ++ ")")
          (run_ghostscript_compress quality env.gs).2 overwrite env fs).1
        simp only [compress_one, hgs, if_true] at h ⊢
        exact this h
      · intro _ hex hle _
        have := (finish_compress_fields src dst before
          ("ghostscript(" ++ quality ++ ")")
          (run_ghostscript_compress quality env.gs).2 overwrite env fs).2 hex hle
        simp only [compress_one, hgs, if_true]
        simpa [hgs] using this
    · by_cases hpk : (run_pikepdf_optimize env.pike).1
      · constructor
        · intro h
          have := (finish_compress_fields src dst before "pikepdf(optimize)"
            (run_pikepdf_optimize env.pike).2 overwrite env fs).1
          simp only [compress_one, Bool.not_eq_true] at hgs
          simp only [compress_one, hgs, hpk, if_true, Bool.false_eq_true,
            if_false] at h ⊢
          exact this h
        · intro _ hex hle _
          have := (finish_compress_fields src dst before "pikepdf(optimize)"
            (run_pikepdf_optimize env.pike).2 overwrite env fs).2 hex hle
          simp only [Bool.not_eq_true] at hgs
          simp only [compress_one, hgs, hpk, if_true, Bool.false_eq_true, if_false]
          simpa [hgs] using this
      · simp only [Bool.not_eq_true] at hgs hpk
        constructor
        · intro h
          simp [compress_one, hgs, hpk] at h
        · intro _ _ _ hstrat
          rcases hstrat with h | h
          · simp_all
          · simp_all

/-- Witness for C1: a 200-byte candidate for a 300-byte source commits with
200 < 300, and a 600-byte candidate for a 500-byte source is skipped with
zero saved bytes under the Ghostscript method name. -/
theorem compress_one_size_acceptance_witness :
    ((compress_one ["in", "f1.pdf"] ["out", "f1.pdf"] 300 "ebook" false false
        (egEnvOk 200) ⟨[], []⟩).1.after_bytes
      < (compress_one ["in", "f1.pdf"] ["out", "f1.pdf"] 300 "ebook" false false
          (egEnvOk 200) ⟨[], []⟩).1.before_bytes)
    ∧ ((compress_one ["in", "f3.pdf"] ["out", "f3.pdf"] 500 "ebook" false false
          (egEnvOk 600) ⟨[], []⟩).1.skipped = true
       ∧ (compress_one ["in", "f3.pdf"] ["out", "f3.pdf"] 500 "ebook" false false
            (egEnvOk 600) ⟨[], []⟩).1.saved_bytes = 0
       ∧ (compress_one ["in", "f3.pdf"] ["out", "f3.pdf"] 500 "ebook" false false
            (egEnvOk 600) ⟨[], []⟩).1.after_bytes = (egEnvOk 600).tmpSize
       ∧ (compress_one ["in", "f3.pdf"] ["out", "f3.pdf"] 500 "ebook" false false
            (egEnvOk 600) ⟨[], []⟩).1.method
           = (if (run_ghostscript_compress "ebook" (egEnvOk 600).gs).1
              then "ghostscript(" ++ "ebook" ++ ")" else "pikepdf(optimize)")) :=
  ⟨(compress_one_size_acceptance ["in", "f1.pdf"] ["out", "f1.pdf"] 300 "ebook"
      false false (egEnvOk 200) ⟨[], []⟩).1 (by decide),
   (compress_one_size_acceptance ["in", "f3.pdf"] ["out", "f3.pdf"] 500 "ebook"
      false false (egEnvOk 600) ⟨[], []⟩).2 rfl rfl (by decide) (Or.inl rfl)⟩

/-- The folder-loop accumulation, generalised over the starting totals. -/
theorem fold_totals_from (dry_run : Bool) (results : List CompressResult) (t : Totals) :
    ((results.foldl (fold_result dry_run) t).total_before
        = t.total_before + (results.map (fun r => r.before_bytes)).sum)
    ∧ ((results.foldl (fold_result dry_run) t).total_after
        = t.total_after + ((results.filter (fun r => ! r.skipped && ! dry_run)).map
            (fun r => r.after_bytes)).sum)
    ∧ ((results.foldl (fold_result dry_run) t).saved_files
        = t.saved_files + (results.filter (fun r => ! r.skipped && ! dry_run)).length) := by
  induction results generalizing t with
  | nil => simp
  | cons r rs ih =>
    obtain ⟨h1, h2, h3⟩ := ih (fold_result dry_run t r)
    simp only [List.foldl_cons, List.map_cons, List.sum_cons, List.filter_cons]
    by_cases hc : (! r.skipped && ! dry_run) = true
    · rw [hc]
      refine ⟨?_, ?_, ?_⟩ <;>
        · first
          | rw [h1] | rw [h2] | rw [h3]
          simp only [List.map_cons, List.sum_cons, List.length_cons, fold_result, hc]
          simp [fold_result]
          omega
    · rw [Bool.not_eq_true] at hc
      rw [hc]
      by_cases hm : r.method = "failed" <;>
        refine ⟨?_, ?_, ?_⟩ <;>
          · first
            | rw [h1] | rw [h2] | rw [h3]
            simp [fold_result, hc, hm] <;> omega

/-- Counterexample to claim C2 as stated: on the spec's own three-file
scenario (before-sizes 300, 400, 500, the first two committing at 200 and
250, the third skipped), the loop in `main` adds every file's size to
`total_before`, giving 1200, not the claimed 700. -/
theorem batch_totals_total_before_cex :
    ((run_batch "ebook" false false egEntries ⟨[], []⟩).1.map
        (fun r => (r.before_bytes, r.after_bytes, r.skipped))
      = [(300, 200, false), (400, 250, false), (500, 600, true)])
    ∧ (batch_totals false
        (run_batch "ebook" false false egEntries ⟨[], []⟩).1).total_before = 1200
    ∧ ¬ (batch_totals false
        (run_batch "ebook" false false egEntries ⟨[], []⟩).1).total_before = 700 := by
  decide

/-- Claim C2 as amended: `total_before` accumulates every processed file's
size, while `total_after` and `saved_files` accumulate only over committed
files (non-skipped, non-dry-run); on the spec's three-file scenario the
summary is `total_before = 1200`, `total_after = 450`, `saved_files = 2`. -/
theorem batch_totals_accumulation (dry_run : Bool) (results : List CompressResult) :
    ((batch_totals dry_run results).total_before
        = (results.map (fun r => r.before_bytes)).sum)
    ∧ ((batch_totals dry_run results).total_after
        = ((results.filter (fun r => ! r.skipped && ! dry_run)).map
            (fun r => r.after_bytes)).sum)
    ∧ ((batch_totals dry_run results).saved_files
        = (results.filter (fun r => ! r.skipped && ! dry_run)).length)
    ∧ batch_totals false (run_batch "ebook" false false egEntries ⟨[], []⟩).1
        = ⟨1200, 450, 2, 1, 0⟩ := by
  obtain ⟨h1, h2, h3⟩ := fold_totals_from dry_run results ⟨0, 0, 0, 0, 0⟩
  exact ⟨by simpa [batch_totals] using h1, by simpa [batch_totals] using h2,
    by simpa [batch_totals] using h3, by decide⟩

/-- Counterexample to claim C3 as stated: in single-file mode a dry-run
result is always skipped, so `main` returns 1, not the claimed 0. -/
theorem main_single_exit_dry_run_cex :
    main_single_exit true ".pdf" ["in", "a.pdf"] ["out", "a.pdf"] 100 "ebook"
        false true (egEnvOk 50) ⟨[], []⟩ = 1
    ∧ ¬ (1 : Nat) = 0 := by
  decide

/-- Claim C3 as amended: exit code 2 on invalid input (missing file, wrong
extension, missing folder); in folder mode 0 in every remaining case
(including "nothing to do" and dry-run); in single-file mode 1 exactly when
the result is skipped or failed — which includes dry-run, whose result is
always skipped — and 0 otherwise. -/
theorem main_exit_codes (srcExists : Bool) (suffixLower : String)
    (src dst : FsPath) (before : Nat) (quality : String)
    (overwrite dry_run : Bool) (env : Env) (fs : FS)
    (folderOk : Bool) (pdfs : List FsPath) :
    (srcExists = false →
      main_single_exit srcExists suffixLower src dst before quality overwrite
        dry_run env fs = 2)
    ∧ (suffixLower ≠ ".pdf" →
        main_single_exit true suffixLower src dst before quality overwrite
          dry_run env fs = 2)
    ∧ (main_single_exit true ".pdf" src dst before quality overwrite dry_run env fs
        = if (compress_one src dst before quality overwrite dry_run env fs).1.skipped
          then 1 else 0)
    ∧ (main_single_exit true ".pdf" src dst before quality overwrite true env fs = 1)
    ∧ (folderOk = false → main_folder_exit folderOk pdfs dry_run = 2)
    ∧ (main_folder_exit true pdfs dry_run = 0) := by
  refine ⟨?_, ?_, ?_, ?_, ?_, ?_⟩
  · intro h; subst h; rfl
  · intro h; simp [main_single_exit, h]
  · simp [main_single_exit]
  · simp [main_single_exit, compress_one]
  · intro h; subst h; rfl
  · simp only [main_folder_exit]
    split_ifs <;> simp_all

/-- Witness for C3's amended claim at concrete inputs: a missing source
file exits 2, a non-PDF suffix exits 2, and a missing folder exits 2. -/
theorem main_exit_codes_witness :
    main_single_exit false ".pdf" ["in", "a.pdf"] ["out", "a.pdf"] 100 "ebook"
        false false (egEnvOk 50) ⟨[], []⟩ = 2
    ∧ main_single_exit true ".txt" ["in", "a.txt"] ["out", "a.txt"] 100 "ebook"
        false false (egEnvOk 50) ⟨[], []⟩ = 2
    ∧ main_folder_exit false [] false = 2 :=
  ⟨(main_exit_codes false ".pdf" ["in", "a.pdf"] ["out", "a.pdf"] 100 "ebook"
      false false (egEnvOk 50) ⟨[], []⟩ false []).1 rfl,
   (main_exit_codes true ".txt" ["in", "a.txt"] ["out", "a.txt"] 100 "ebook"
      false false (egEnvOk 50) ⟨[], []⟩ false []).2.1 (by decide),
   (main_exit_codes true ".pdf" ["in", "a.pdf"] ["out", "a.pdf"] 100 "ebook"
      false false (egEnvOk 50) ⟨[], []⟩ false []).2.2.2.2.1 rfl⟩

/-- Claim C9: when the destination already exists and overwrite is off,
the commit step reports failure with the "output exists" message and
leaves every file untouched, yet it has already created the missing parent
directories of the destination, so the filesystem as a whole is not left
unchanged on this error path. -/
theorem safe_write_output_parent_dirs (tmpSize : Nat) (final_out : FsPath)
    (wenv : WriteEnv) (fs : FS) (hex : fs.fileExists final_out = true) :
    (safe_write_output tmpSize final_out false wenv fs).1.1 = false
    ∧ (safe_write_output tmpSize final_out false wenv fs).1.2
        = "Output exists (use --overwrite): " ++ pathStr final_out
    ∧ (safe_write_output tmpSize final_out false wenv fs).2.files = fs.files
    ∧ (safe_write_output tmpSize final_out false wenv fs).2.dirs
        = fs.dirs ++ (pathAncestors final_out.dropLast).filter
            (fun d => ! fs.dirs.contains d)
    ∧ ((pathAncestors final_out.dropLast).any (fun d => ! fs.dirs.contains d) = true →
        (safe_write_output tmpSize final_out false wenv fs).2 ≠ fs) := by
  have h1 : (fs.mkdirParents final_out.dropLast).fileExists final_out = true := hex
  have hw : safe_write_output tmpSize final_out false wenv fs
      = ((false, "Output exists (use --overwrite): " ++ pathStr final_out),
         fs.mkdirParents final_out.dropLast) := by
    simp [safe_write_output, h1]
  refine ⟨by rw [hw], by rw [hw], by rw [hw]; rfl, by rw [hw]; rfl, ?_⟩
  · intro hany heq
    rw [hw] at heq
    have hd2 : fs.dirs ++ (pathAncestors final_out.dropLast).filter
        (fun d => ! fs.dirs.contains d) = fs.dirs := congrArg FS.dirs heq
    have hlen := congrArg List.length hd2
    simp only [List.length_append] at hlen
    have hflt : ((pathAncestors final_out.dropLast).filter
        (fun d => ! fs.dirs.contains d)).length = 0 := by omega
    rw [List.length_eq_zero] at hflt
    obtain ⟨d, hmem, hpred⟩ := List.any_eq_true.mp hany
    have hin : d ∈ (pathAncestors final_out.dropLast).filter
        (fun d => ! fs.dirs.contains d) := List.mem_filter.mpr ⟨hmem, hpred⟩
    rw [hflt] at hin
    exact absurd hin (List.not_mem_nil d)

/-- Witness for C9: with `/out/sub/a.pdf` present but no directories
recorded, the commit fails yet the filesystem changes (parents appear). -/
theorem safe_write_output_parent_dirs_witness :
    (safe_write_output 10 ["out", "sub", "a.pdf"] false ⟨false, ""⟩
        ⟨[(["out", "sub", "a.pdf"], 7)], []⟩).1.1 = false
    ∧ (safe_write_output 10 ["out", "sub", "a.pdf"] false ⟨false, ""⟩
        ⟨[(["out", "sub", "a.pdf"], 7)], []⟩).2
        ≠ ⟨[(["out", "sub", "a.pdf"], 7)], []⟩ :=
  ⟨(safe_write_output_parent_dirs 10 ["out", "sub", "a.pdf"] ⟨false, ""⟩
      ⟨[(["out", "sub", "a.pdf"], 7)], []⟩ rfl).1,
   (safe_write_output_parent_dirs 10 ["out", "sub", "a.pdf"] ⟨false, ""⟩
      ⟨[(["out", "sub", "a.pdf"], 7)], []⟩ rfl).2.2.2.2 (by decide)⟩

/-- The tail of `compress_one` when the candidate is smaller but the
destination already exists and overwrite is off. -/
theorem finish_compress_dest_exists (src dst : FsPath) (before : Nat)
    (method msg : String) (env : Env) (fs : FS)
    (hex : env.tmpExists = true) (hsm : env.tmpSize < before)
    (hdst : fs.fileExists dst = true) :
    (finish_compress src dst before method msg false env fs).1.skipped = true
    ∧ (finish_compress src dst before method msg false env fs).1.message
        = "Output exists (use --overwrite): " ++ pathStr dst
    ∧ (finish_compress src dst before method msg false env fs).1.saved_bytes
        = before - env.tmpSize
    ∧ (finish_compress src dst before method msg false env fs).2.files = fs.files := by
  have h1 : (fs.mkdirParents dst.dropLast).fileExists dst = true := hdst
  have hw : safe_write_output env.tmpSize dst false env.write fs
      = ((false, "Output exists (use --overwrite): " ++ pathStr dst),
         fs.mkdirParents dst.dropLast) := by
    simp [safe_write_output, h1]
  have hle : ¬ before ≤ env.tmpSize := by omega
  refine ⟨?_, ?_, ?_, ?_⟩ <;>
    simp [finish_compress, hex, hle, hw, mkdirParents_files]

/-- `compress_one` when a strategy produced a smaller candidate but the
destination already exists and overwrite is off. -/
theorem compress_one_dest_exists (src dst : FsPath) (before : Nat)
    (quality : String) (env : Env) (fs : FS)
    (hstrat : (run_ghostscript_compress quality env.gs).1 = true
      ∨ (run_pikepdf_optimize env.pike).1 = true)
    (hex : env.tmpExists = true) (hsm : env.tmpSize < before)
    (hdst : fs.fileExists dst = true) :
    (compress_one src dst before quality false false env fs).1.skipped = true
    ∧ (compress_one src dst before quality false false env fs).1.message
        = "Output exists (use --overwrite): " ++ pathStr dst
    ∧ (compress_one src dst before quality false false env fs).1.saved_bytes
        = before - env.tmpSize
    ∧ (compress_one src dst before quality false false env fs).2.files = fs.files := by
  by_cases hgs : (run_ghostscript_compress quality env.gs).1
  · have := finish_compress_dest_exists src dst before
      ("ghostscript(" ++ quality ++ ")") (run_ghostscript_compress quality env.gs).2
      env fs hex hsm hdst
    simpa [compress_one, hgs] using this
  · have hpk : (run_pikepdf_optimize env.pike).1 = true := by
      rcases hstrat with h | h
      · exact absurd h hgs
      · exact h
    have := finish_compress_dest_exists src dst before "pikepdf(optimize)"
      (run_pikepdf_optimize env.pike).2 env fs hex hsm hdst
    simp only [Bool.not_eq_true] at hgs
    simpa [compress_one, hgs, hpk] using this

/-- The whole batch loop re-run against pre-existing outputs: every file is
skipped with the "output exists" message and the set of files on disk is
unchanged. -/
theorem run_batch_dest_exists (quality : String)
    (entries : List (FsPath × FsPath × Nat × Env)) (fs : FS)
    (h : ∀ e ∈ entries,
      ((run_ghostscript_compress quality e.2.2.2.gs).1 = true
        ∨ (run_pikepdf_optimize e.2.2.2.pike).1 = true)
      ∧ e.2.2.2.tmpExists = true
      ∧ e.2.2.2.tmpSize < e.2.2.1
      ∧ fs.fileExists e.2.1 = true) :
    (run_batch quality false false entries fs).2.files = fs.files
    ∧ (run_batch quality false false entries fs).1.map
        (fun r => (r.skipped, r.message))
      = entries.map
          (fun e => (true, "Output exists (use --overwrite): " ++ pathStr e.2.1)) := by
  induction entries generalizing fs with
  | nil => simp [run_batch]
  | cons e rest ih =>
    obtain ⟨src, dst, before, env⟩ := e
    obtain ⟨hstrat, hex, hsm, hdst⟩ := h _ (List.mem_cons_self _ _)
    have hc := compress_one_dest_exists src dst before quality env fs hstrat hex
      hsm hdst
    have hfiles : (compress_one src dst before quality false false env fs).2.files
        = fs.files := hc.2.2.2
    have hrest := ih (compress_one src dst before quality false false env fs).2 (by
      intro e' hmem
      obtain ⟨h1, h2, h3, h4⟩ := h e' (List.mem_cons_of_mem _ hmem)
      refine ⟨h1, h2, h3, ?_⟩
      rw [fileExists_congr _ fs _ hfiles]
      exact h4)
    refine ⟨?_, ?_⟩
    · simp only [run_batch]
      rw [hrest.1, hfiles]
    · simp only [run_batch, List.map_cons]
      rw [hrest.2, hc.1, hc.2.1]

/-- Claim C6: with a smaller candidate in hand but the destination already
present and overwrite off, the per-file result is skipped with the "output
exists" message and `saved_bytes = before - after` while no file content
changes; and re-running a whole batch against pre-existing outputs skips
every file with that message and modifies zero files. -/
theorem compress_one_no_overwrite (src dst : FsPath) (before : Nat)
    (quality : String) (env : Env) (fs : FS)
    (entries : List (FsPath × FsPath × Nat × Env)) (fs0 : FS) :
    (((run_ghostscript_compress quality env.gs).1 = true
        ∨ (run_pikepdf_optimize env.pike).1 = true) →
      env.tmpExists = true → env.tmpSize < before → fs.fileExists dst = true →
      (compress_one src dst before quality false false env fs).1.skipped = true
      ∧ (compress_one src dst before quality false false env fs).1.message
          = "Output exists (use --overwrite): " ++ pathStr dst
      ∧ (compress_one src dst before quality false false env fs).1.saved_bytes
          = before - env.tmpSize
      ∧ (compress_one src dst before quality false false env fs).2.files = fs.files)
    ∧ ((∀ e ∈ entries,
        ((run_ghostscript_compress quality e.2.2.2.gs).1 = true
          ∨ (run_pikepdf_optimize e.2.2.2.pike).1 = true)
        ∧ e.2.2.2.tmpExists = true
        ∧ e.2.2.2.tmpSize < e.2.2.1
        ∧ fs0.fileExists e.2.1 = true) →
      (run_batch quality false false entries fs0).2.files = fs0.files
      ∧ (run_batch quality false false entries fs0).1.map
          (fun r => (r.skipped, r.message))
        = entries.map
            (fun e => (true, "Output exists (use --overwrite): " ++ pathStr e.2.1))) :=
  ⟨fun hstrat hex hsm hdst =>
    compress_one_dest_exists src dst before quality env fs hstrat hex hsm hdst,
   fun hb => run_batch_dest_exists quality entries fs0 hb⟩

/-- Witness for C6: one 100-byte file with a 50-byte candidate whose
destination `/out/a.pdf` (80 bytes) already exists; per-file and one-entry
batch instances. -/
theorem compress_one_no_overwrite_witness :
    ((compress_one ["in", "a.pdf"] ["out", "a.pdf"] 100 "ebook" false false
        (egEnvOk 50) ⟨[(["out", "a.pdf"], 80)], []⟩).1.skipped = true
      ∧ (compress_one ["in", "a.pdf"] ["out", "a.pdf"] 100 "ebook" false false
          (egEnvOk 50) ⟨[(["out", "a.pdf"], 80)], []⟩).1.message
          = "Output exists (use --overwrite): " ++ pathStr ["out", "a.pdf"]
      ∧ (compress_one ["in", "a.pdf"] ["out", "a.pdf"] 100 "ebook" false false
          (egEnvOk 50) ⟨[(["out", "a.pdf"], 80)], []⟩).1.saved_bytes
          = 100 - (egEnvOk 50).tmpSize
      ∧ (compress_one ["in", "a.pdf"] ["out", "a.pdf"] 100 "ebook" false false
          (egEnvOk 50) ⟨[(["out", "a.pdf"], 80)], []⟩).2.files
          = (⟨[(["out", "a.pdf"], 80)], []⟩ : FS).files)
    ∧ ((run_batch "ebook" false false
          [(["in", "a.pdf"], ["out", "a.pdf"], 100, egEnvOk 50)]
          ⟨[(["out", "a.pdf"], 80)], []⟩).2.files
          = (⟨[(["out", "a.pdf"], 80)], []⟩ : FS).files
      ∧ (run_batch "ebook" false false
          [(["in", "a.pdf"], ["out", "a.pdf"], 100, egEnvOk 50)]
          ⟨[(["out", "a.pdf"], 80)], []⟩).1.map
            (fun r => (r.skipped, r.message))
        = [(["in", "a.pdf"], ["out", "a.pdf"], 100, egEnvOk 50)].map
            (fun e => (true, "Output exists (use --overwrite): " ++ pathStr e.2.1))) :=
  ⟨(compress_one_no_overwrite ["in", "a.pdf"] ["out", "a.pdf"] 100 "ebook"
      (egEnvOk 50) ⟨[(["out", "a.pdf"], 80)], []⟩ [] ⟨[], []⟩).1
      (Or.inl rfl) rfl (by decide) rfl,
   (compress_one_no_overwrite ["in", "a.pdf"] ["out", "a.pdf"] 100 "ebook"
      (egEnvOk 50) ⟨[(["out", "a.pdf"], 80)], []⟩
      [(["in", "a.pdf"], ["out", "a.pdf"], 100, egEnvOk 50)]
      ⟨[(["out", "a.pdf"], 80)], []⟩).2 (by decide)⟩

end PdfCompress
